import Mathlib

/-!
Shallow embedding of the `hw_impl` module of the `rust-cryptoauthlib` crate
(file `src/cryptoauthlib/src/hw_impl/mod.rs`).

Machine bytes are modelled as `Nat` values below 256; Rust `Vec<u8>` /
`&[u8]` buffers are `List Nat`.  The vendor C library ("hardware
primitives") is modelled by an oracle `HwEnv` that prescribes, for each
primitive, the status it returns and the bytes it writes into the output
buffer; every model function additionally returns the list of hardware
primitives it invoked, in order, as a `List HwCall` trace.  Functions
whose Rust original can panic on an out-of-range `Vec` index return
`Option` values, `none` standing for the panic.
-/

set_option maxRecDepth 16384

namespace CryptoAuthLib

/-- Status codes of the closed `AtcaStatus` enumeration (the subset
reachable from the modelled functions). -/
inductive AtcaStatus where
  | AtcaSuccess
  | AtcaNotLocked
  | AtcaBadParam
  | AtcaInvalidSize
  | AtcaInvalidId
  | AtcaUnimplemented
  | AtcaAllocFailure
  | AtcaFuncFail
  | AtcaUnknown
deriving DecidableEq, Repr

/-- Key types decoded from the key-config field (`KeyType` in the source). -/
inductive KeyType where
  | P256EccKey
  | Aes
  | ShaOrText
  | Rfu
deriving DecidableEq, Repr

/-- Write-access policy decoded from the slot-config field
(`WriteConfig` in the source). -/
inductive WriteConfig where
  | Always
  | PubInvalid
  | Never
  | Encrypt
deriving DecidableEq, Repr

/-- Targets of the Nonce command (`NonceTarget` in the source). -/
inductive NonceTarget where
  | TempKey
  | MsgDigBuf
  | AltKeyBuf
deriving DecidableEq, Repr

/-- Device families (`AtcaDeviceType` in the source). -/
inductive AtcaDeviceType where
  | ATECC508A
  | ATECC608A
  | ATECC108A
  | ATSHA204A
  | AtcaDevUnknown
deriving DecidableEq, Repr

/-- Modelled from the spec: parameter payload of the internal sign mode
(`SignEcdsaParam`; its definition lives outside the provided sources).
Only its existence matters: the mode that carries it is Unimplemented. -/
structure SignEcdsaParam where
  is_invalidate : Bool
  is_full_sn : Bool
deriving DecidableEq, Repr

/-- Modelled from the spec: parameter payload of the MAC verify modes
(`VerifyEcdsaParam`; its definition lives outside the provided sources).
Only its existence matters: the modes that carry it are Unimplemented. -/
inductive VerifyEcdsaParam where
  | mk
deriving DecidableEq, Repr

/-- Modes of `sign_hash` (`SignMode` in the source). -/
inductive SignMode where
  | External (hash : List Nat)
  | Internal (param : SignEcdsaParam)
deriving DecidableEq, Repr

/-- Modes of `verify_hash` (`VerifyMode` in the source). -/
inductive VerifyMode where
  | Internal (slot_number : Nat)
  | External (public_key : List Nat)
  | InternalMac (param : VerifyEcdsaParam)
  | ExternalMac (param : VerifyEcdsaParam)
deriving DecidableEq, Repr

/-- Read-access descriptor of a slot (`ReadKey` in the source). -/
structure ReadKey where
  encrypt_read : Bool
  slot_number : Nat
deriving DecidableEq, Repr

/-- ECC attribute bits of a slot (`EccKeyAttr` in the source). -/
structure EccKeyAttr where
  is_private : Bool
  ext_sign : Bool
  int_sign : Bool
  ecdh_operation : Bool
  ecdh_secret_out : Bool
deriving DecidableEq, Repr

/-- Decoded per-slot policy (`SlotConfig` in the source). -/
structure SlotConfig where
  write_config : WriteConfig
  key_type : KeyType
  read_key : ReadKey
  ecc_key_attr : EccKeyAttr
  x509id : Nat
  auth_key : Nat
  write_key : Nat
  is_secret : Bool
  limited_use : Bool
  no_mac : Bool
  persistent_disable : Bool
  req_auth : Bool
  req_random : Bool
  lockable : Bool
  pub_info : Bool
deriving DecidableEq, Repr

/-- One decoded slot descriptor (`AtcaSlot` in the source). -/
structure AtcaSlot where
  id : Nat
  is_locked : Bool
  config : SlotConfig
deriving DecidableEq, Repr

/-- Capability flags of the chip (`ChipOptions` in the source; the two
output-protection states are kept as raw 2-bit numbers). -/
structure ChipOptions where
  aes_enabled : Bool
  kdf_aes_enabled : Bool
  io_key_enabled : Bool
  io_key_in_slot : Nat
  ecdh_output_protection : Nat
  kdf_output_protection : Nat
deriving DecidableEq, Repr

/-- Slot capacity descriptor (`AtcaSlotCapacity` in the source). -/
structure AtcaSlotCapacity where
  blocks : Nat
  last_block_bytes : Nat
  bytes : Nat
deriving DecidableEq, Repr

/-! Modelled from the spec: the numeric constants below are declared in
the crate root module, which is not among the provided sources; their
values follow the sizes the spec states (16 key slots, 32-byte access
keys / nonces / digests / blocks, 64-byte signatures and public keys,
16-byte AES keys, a reserved TempKey id outside the slot range, and a
family-defined minimum slot index of 8 for public keys). -/

def ATCA_ATECC_SLOTS_COUNT : Nat := 16
def ATCA_KEY_SIZE : Nat := 32
def ATCA_BLOCK_SIZE : Nat := 32
def ATCA_AES_KEY_SIZE : Nat := 16
def ATCA_NONCE_SIZE : Nat := 32
def ATCA_NONCE_NUMIN_SIZE : Nat := 20
def ATCA_RANDOM_BUFFER_SIZE : Nat := 32
def ATCA_SHA2_256_DIGEST_SIZE : Nat := 32
def ATCA_SIG_SIZE : Nat := 64
def ATCA_ATECC_PUB_KEY_SIZE : Nat := 64
def ATCA_ATECC_PRIV_KEY_SIZE : Nat := 32
def ATCA_ATECC_MIN_SLOT_IDX_FOR_PUB_KEY : Nat := 8
def ATCA_ATECC_TEMPKEY_KEYID : Nat := 0xFFFF
def ATCA_ZONE_CONFIG : Nat := 0x00
def ATCA_ZONE_DATA : Nat := 0x02

/-- Rust `Vec::resize(len, 0)`: truncate to `n` elements or pad with
zero bytes up to `n` elements. -/
def resize (l : List Nat) (n : Nat) : List Nat :=
  l.take n ++ List.replicate (n - l.length) 0

/-- Free function `atcab_get_bit_value`. -/
def atcab_get_bit_value (byte : Nat) (bit_pos : Nat) : Bool :=
  if bit_pos < 8 then ((byte >>> bit_pos) &&& 1) != 0 else false

/-- Free function `atcab_get_write_config`: decode the write-config
nibble (the argument is masked to its low four bits). -/
def atcab_get_write_config (data : Nat) : WriteConfig :=
  match data &&& 0b00001111 with
  | 0 => WriteConfig.Always
  | 1 => WriteConfig.PubInvalid
  | 2 | 3 => WriteConfig.Never
  | 4 | 5 | 6 | 7 => WriteConfig.Encrypt
  | 8 | 9 | 10 | 11 => WriteConfig.Never
  | _ => WriteConfig.Encrypt

/-- Free function `atcab_get_key_type`: decode the key-type bits
(the argument is masked to its low three bits). -/
def atcab_get_key_type (data : Nat) : KeyType :=
  match data &&& 0b00000111 with
  | 4 => KeyType.P256EccKey
  | 6 => KeyType.Aes
  | 7 => KeyType.ShaOrText
  | _ => KeyType.Rfu

/-- Free function `atcab_get_config_from_config_zone`: decode the raw
configuration-zone buffer into the 16 slot descriptors.  The Rust
original indexes `config_data` directly (its caller guarantees a
full-size buffer); out-of-range reads are modelled as zero bytes via
`getD`. -/
def atcab_get_config_from_config_zone (config_data : List Nat) : List AtcaSlot :=
  (List.range ATCA_ATECC_SLOTS_COUNT).map (fun idx =>
    let slot_cfg_pos := 20 + idx * 2
    let key_cfg_pos := 96 + idx * 2
    let read_key_struct : ReadKey :=
      { encrypt_read := atcab_get_bit_value (config_data.getD slot_cfg_pos 0) 6
        slot_number := (config_data.getD slot_cfg_pos 0) &&& 0b00001111 }
    let ecc_key_attr_struct : EccKeyAttr :=
      { is_private := atcab_get_bit_value (config_data.getD key_cfg_pos 0) 0
        ext_sign := atcab_get_bit_value (config_data.getD slot_cfg_pos 0) 0
        int_sign := atcab_get_bit_value (config_data.getD slot_cfg_pos 0) 1
        ecdh_operation := atcab_get_bit_value (config_data.getD slot_cfg_pos 0) 2
        ecdh_secret_out := atcab_get_bit_value (config_data.getD slot_cfg_pos 0) 3 }
    let config_struct : SlotConfig :=
      { write_config := atcab_get_write_config ((config_data.getD (slot_cfg_pos + 1) 0) >>> 4)
        key_type := atcab_get_key_type ((config_data.getD key_cfg_pos 0) >>> 2)
        read_key := read_key_struct
        ecc_key_attr := ecc_key_attr_struct
        x509id := ((config_data.getD (key_cfg_pos + 1) 0) >>> 6) &&& 0b00000011
        auth_key := (config_data.getD (key_cfg_pos + 1) 0) &&& 0b00001111
        write_key := (config_data.getD (slot_cfg_pos + 1) 0) &&& 0b00001111
        is_secret := atcab_get_bit_value (config_data.getD slot_cfg_pos 0) 7
        limited_use := atcab_get_bit_value (config_data.getD slot_cfg_pos 0) 5
        no_mac := atcab_get_bit_value (config_data.getD slot_cfg_pos 0) 4
        persistent_disable := atcab_get_bit_value (config_data.getD (key_cfg_pos + 1) 0) 4
        req_auth := atcab_get_bit_value (config_data.getD key_cfg_pos 0) 7
        req_random := atcab_get_bit_value (config_data.getD key_cfg_pos 0) 6
        lockable := atcab_get_bit_value (config_data.getD key_cfg_pos 0) 5
        pub_info := atcab_get_bit_value (config_data.getD key_cfg_pos 0) 1 }
    { id := idx
      is_locked :=
        let index := 88 + idx / 8
        let bit_position := idx % 8
        let bit_value := ((config_data.getD index 0) >>> bit_position) &&& 1
        bit_value != 1
      config := config_struct })

/-- One invocation of a vendor hardware primitive (a chip transaction),
recorded with the arguments the wrapper passes down. -/
inductive HwCall where
  | atcab_random
  | atcab_nonce_load (target : NonceTarget) (len : Nat)
  | atcab_genkey (slot : Nat)
  | atcab_sign (slot : Nat)
  | atcab_verify_stored (slot : Nat)
  | atcab_verify_extern
  | atcab_write_zone (zone slot block offset : Nat) (data : List Nat) (len : Nat)
  | atcab_write_enc (slot block : Nat) (data : List Nat) (key_idx : Nat)
  | atcab_write_pubkey (slot : Nat) (data : List Nat)
  | atcab_priv_write (slot : Nat) (data : List Nat) (key_idx : Nat)
  | atcab_get_pubkey (slot : Nat)
  | atcab_read_pubkey (slot : Nat)
  | atcab_read_zone (zone slot block offset : Nat) (len : Nat)
  | atcab_read_enc (slot block : Nat) (key_idx : Nat)
deriving DecidableEq, Repr

/-- Hardware oracle: for each primitive, the status it returns and (for
primitives with an output buffer) the bytes found in that buffer after
the call.  `random1`/`random2` are the responses to the first and second
`atcab_random` call a single operation makes. -/
structure HwEnv where
  random1 : AtcaStatus × List Nat
  random2 : AtcaStatus × List Nat
  nonce_load : AtcaStatus
  genkey : AtcaStatus
  sign : AtcaStatus × List Nat
  verify_stored : AtcaStatus × Bool
  verify_extern : AtcaStatus × Bool
  write_zone : AtcaStatus
  write_enc : AtcaStatus
  write_pubkey : AtcaStatus
  priv_write : AtcaStatus
  get_pubkey : AtcaStatus × List Nat
  read_pubkey : AtcaStatus × List Nat
  read_zone : AtcaStatus × List Nat
  read_enc : AtcaStatus × List Nat

/-- Device context state (`AteccDevice` in the source).  `device_type`
stands for the value `atcab_get_device_type()` reports for the open
session (a pure accessor of the vendor context, not a chip
transaction); `access_keys` models the `HashMap<u8, [u8; 32]>` behind
the `Mutex<RefCell<..>>`. -/
structure AteccDevice where
  device_type : AtcaDeviceType
  config_zone_locked : Bool
  data_zone_locked : Bool
  chip_options : ChipOptions
  access_keys : Nat → Option (List Nat)
  slots : List AtcaSlot

namespace AteccDevice

/-- Method `check_that_configuration_is_not_locked`. -/
def check_that_configuration_is_not_locked (dev : AteccDevice) (both : Bool) : Bool :=
  (!dev.data_zone_locked && both) || !dev.config_zone_locked

/-- Method `get_slot_capacity` (it reads no device state). -/
def get_slot_capacity (slot_id : Nat) : AtcaSlotCapacity :=
  if slot_id ≤ 0x07 then { blocks := 2, last_block_bytes := 4, bytes := 36 }
  else if slot_id = 0x08 then { blocks := 13, last_block_bytes := 32, bytes := 416 }
  else if slot_id ≤ 0x0F then { blocks := 3, last_block_bytes := 8, bytes := 72 }
  else { blocks := 0, last_block_bytes := 0, bytes := 0 }

/-- Method `encryption_key_setup_parameters_check`; `none` models the
panic of `self.slots[slot_id as usize]` on a short slot table. -/
def encryption_key_setup_parameters_check (dev : AteccDevice) (key_type : KeyType)
    (slot_id : Nat) : Option (Except AtcaStatus Unit) :=
  if slot_id > ATCA_ATECC_SLOTS_COUNT then some (Except.error AtcaStatus.AtcaInvalidId)
  else if slot_id = ATCA_ATECC_SLOTS_COUNT ∧ key_type ≠ KeyType.Aes then
    some (Except.error AtcaStatus.AtcaBadParam)
  else if key_type = KeyType.Aes ∧ ¬dev.chip_options.aes_enabled then
    some (Except.error AtcaStatus.AtcaBadParam)
  else if slot_id < ATCA_ATECC_SLOTS_COUNT then do
    let s ← dev.slots.get? slot_id
    if key_type ≠ s.config.key_type then some (Except.error AtcaStatus.AtcaBadParam)
    else some (Except.ok ())
  else some (Except.ok ())

/-- Method `access_key_setup_parameters_check`. -/
def access_key_setup_parameters_check (dev : AteccDevice) (slot_id : Nat) :
    Except AtcaStatus Unit :=
  if slot_id > ATCA_ATECC_SLOTS_COUNT ∨
      (slot_id = ATCA_ATECC_SLOTS_COUNT ∧ dev.device_type ≠ AtcaDeviceType.ATECC608A) then
    Except.error AtcaStatus.AtcaInvalidId
  else Except.ok ()

/-- Method `get_write_key_idx`; the outer `Option` models the indexing
panic, the inner one is the Rust `Option` result. -/
def get_write_key_idx (dev : AteccDevice) (slot_id : Nat) : Option (Option Nat) :=
  if slot_id < ATCA_ATECC_SLOTS_COUNT then do
    let s ← dev.slots.get? slot_id
    if s.config.write_config = WriteConfig.Encrypt then some (some s.config.write_key)
    else some none
  else some none

/-- Method `get_read_key_idx`; the outer `Option` models the indexing
panic, the inner one is the Rust `Option` result. -/
def get_read_key_idx (dev : AteccDevice) (slot_id : Nat) : Option (Option Nat) :=
  if slot_id < ATCA_ATECC_SLOTS_COUNT then do
    let s ← dev.slots.get? slot_id
    if s.config.read_key.encrypt_read ∧ s.config.is_secret ∧
        ¬s.config.ecc_key_attr.is_private then
      some (some s.config.read_key.slot_number)
    else some none
  else some none

/-- Method `random`: the lock check, then one `atcab_random` call whose
response `res` the oracle prescribes (status and post-call buffer
content).  Returns the status, the final buffer and the trace. -/
def random (dev : AteccDevice) (res : AtcaStatus × List Nat) (rand_out : List Nat) :
    AtcaStatus × List Nat × List HwCall :=
  if dev.check_that_configuration_is_not_locked false then
    (AtcaStatus.AtcaNotLocked, rand_out, [])
  else
    let _buf := resize rand_out ATCA_RANDOM_BUFFER_SIZE
    (res.1, res.2, [HwCall.atcab_random])

/-- Method `nonce`: validate the family/target/length combination, then
issue `atcab_nonce_load`. -/
def nonce (dev : AteccDevice) (env : HwEnv) (target : NonceTarget) (data : List Nat) :
    AtcaStatus × List HwCall :=
  if dev.device_type ≠ AtcaDeviceType.ATECC608A ∧ target ≠ NonceTarget.TempKey then
    (AtcaStatus.AtcaBadParam, [])
  else
    let dev_type_608 : Bool := dev.device_type = AtcaDeviceType.ATECC608A
    let alt_key_buff : Bool := target = NonceTarget.AltKeyBuf
    let no_len_32 : Bool := data.length ≠ ATCA_NONCE_SIZE
    let no_len_64 : Bool := data.length ≠ 2 * ATCA_NONCE_SIZE
    if (!dev_type_608 && alt_key_buff) || (alt_key_buff && no_len_32)
        || (!dev_type_608 && !no_len_64) || (no_len_32 && no_len_64)
        || (!no_len_32 && !no_len_64) then
      (AtcaStatus.AtcaInvalidSize, [])
    else
      (env.nonce_load, [HwCall.atcab_nonce_load target data.length])

/-- Method `get_access_key` (a pure lookup in the in-memory store; the
`FuncFail` borrow-contention branch cannot fire in this sequential
model).  Returns the status and the content of the caller's buffer. -/
def get_access_key (dev : AteccDevice) (slot_id : Nat) (key : List Nat) :
    AtcaStatus × List Nat :=
  match dev.access_key_setup_parameters_check slot_id with
  | Except.error err => (err, key)
  | Except.ok () =>
    let key := resize key ATCA_KEY_SIZE
    match dev.access_keys slot_id with
    | none => (AtcaStatus.AtcaInvalidId, key)
    | some access_key => (AtcaStatus.AtcaSuccess, access_key)

/-- Method `add_access_key`: parameter and length checks, then insert
into the store.  Returns the status and the updated device. -/
def add_access_key (dev : AteccDevice) (slot_id : Nat) (access_key : List Nat) :
    AtcaStatus × AteccDevice :=
  match dev.access_key_setup_parameters_check slot_id with
  | Except.error err => (err, dev)
  | Except.ok () =>
    if access_key.length ≠ ATCA_KEY_SIZE then (AtcaStatus.AtcaInvalidSize, dev)
    else
      (AtcaStatus.AtcaSuccess,
        { dev with access_keys := fun x => if x = slot_id then some access_key
                                           else dev.access_keys x })

/-- Method `flush_access_keys`: clear the store. -/
def flush_access_keys (dev : AteccDevice) : AtcaStatus × AteccDevice :=
  (AtcaStatus.AtcaSuccess, { dev with access_keys := fun _ => none })

/-- Method `write_zone`: resize the data to `len`, then issue
`atcab_write_zone`.  Returns status, final data and trace. -/
def write_zone (dev : AteccDevice) (env : HwEnv) (zone slot block offset : Nat)
    (data : List Nat) (len : Nat) : AtcaStatus × List Nat × List HwCall :=
  let _ := dev
  let data := resize data len
  (env.write_zone, data, [HwCall.atcab_write_zone zone slot block offset data len])

/-- Method `write_slot_with_encryption`. -/
def write_slot_with_encryption (dev : AteccDevice) (env : HwEnv) (slot block : Nat)
    (data num_in : List Nat) : Option (AtcaStatus × List HwCall) :=
  if data.length ≠ ATCA_BLOCK_SIZE ∨ num_in.length ≠ ATCA_NONCE_NUMIN_SIZE then
    some (AtcaStatus.AtcaInvalidSize, [])
  else if slot ≥ ATCA_ATECC_SLOTS_COUNT ∨ block ≥ (get_slot_capacity slot).blocks then
    some (AtcaStatus.AtcaInvalidId, [])
  else do
    match ← dev.get_write_key_idx slot with
    | some write_key_idx =>
      let (result, _write_key) :=
        dev.get_access_key write_key_idx (List.replicate ATCA_KEY_SIZE 0)
      if result = AtcaStatus.AtcaSuccess then
        some (env.write_enc, [HwCall.atcab_write_enc slot block data write_key_idx])
      else some (result, [])
    | none => some (AtcaStatus.AtcaBadParam, [])

/-- Method `read_zone`: resize the buffer to `len`, then issue
`atcab_read_zone`; after the call the buffer holds the bytes the oracle
prescribes.  Returns status, final buffer and trace. -/
def read_zone (dev : AteccDevice) (env : HwEnv) (zone slot block offset : Nat)
    (data : List Nat) (len : Nat) : AtcaStatus × List Nat × List HwCall :=
  let _ := dev
  let _ := resize data len
  ((env.read_zone).1, (env.read_zone).2,
    [HwCall.atcab_read_zone zone slot block offset len])

/-- Method `read_slot_with_encryption`.  Returns status, the content of
the caller's data buffer after the call, and the trace. -/
def read_slot_with_encryption (dev : AteccDevice) (env : HwEnv) (slot block : Nat)
    (data num_in : List Nat) : Option (AtcaStatus × List Nat × List HwCall) :=
  if data.length ≠ ATCA_BLOCK_SIZE ∨ num_in.length ≠ ATCA_NONCE_NUMIN_SIZE then
    some (AtcaStatus.AtcaInvalidSize, data, [])
  else if slot ≥ ATCA_ATECC_SLOTS_COUNT ∨ block ≥ (get_slot_capacity slot).blocks then
    some (AtcaStatus.AtcaInvalidId, data, [])
  else do
    match ← dev.get_read_key_idx slot with
    | some read_key_idx =>
      let (result, _read_key) :=
        dev.get_access_key read_key_idx (List.replicate ATCA_KEY_SIZE 0)
      if result = AtcaStatus.AtcaSuccess then
        some ((env.read_enc).1, (env.read_enc).2,
          [HwCall.atcab_read_enc slot block read_key_idx])
      else some (result, data, [])
    | none => some (AtcaStatus.AtcaBadParam, data, [])

/-- Method `gen_key`.  For the AES path the two successive
`atcab_random` responses are `env.random1` and `env.random2`.  `none`
models an indexing panic. -/
def gen_key (dev : AteccDevice) (env : HwEnv) (key_type : KeyType) (slot_id : Nat) :
    Option (AtcaStatus × List HwCall) :=
  if dev.check_that_configuration_is_not_locked false then
    some (AtcaStatus.AtcaNotLocked, [])
  else do
    match ← dev.encryption_key_setup_parameters_check key_type slot_id with
    | Except.error err => some (err, [])
    | Except.ok () =>
      let slot := if slot_id = ATCA_ATECC_SLOTS_COUNT then ATCA_ATECC_TEMPKEY_KEYID
                  else slot_id
      match key_type with
      | KeyType.P256EccKey => do
        let s ← dev.slots.get? slot_id
        if ¬s.config.is_secret then some (AtcaStatus.AtcaBadParam, [])
        else some (env.genkey, [HwCall.atcab_genkey slot])
      | KeyType.Aes =>
        let key : List Nat := []
        let (result, key, trace1) := dev.random env.random1 key
        let (status2, key, trace2) := dev.random env.random2 key
        if status2 ≠ AtcaStatus.AtcaSuccess then some (result, trace1 ++ trace2)
        else
          let key := if key.length > ATCA_AES_KEY_SIZE then key.take ATCA_AES_KEY_SIZE
                     else key
          let key := if key.length < ATCA_BLOCK_SIZE then resize key ATCA_BLOCK_SIZE
                     else key
          if slot ≠ ATCA_ATECC_TEMPKEY_KEYID then do
            let s ← dev.slots.get? slot_id
            match s.config.write_config with
            | WriteConfig.Always =>
              let (st, _data, tw) :=
                dev.write_zone env ATCA_ZONE_DATA slot 0 0 key ATCA_BLOCK_SIZE
              some (st, trace1 ++ trace2 ++ tw)
            | WriteConfig.Encrypt =>
              let num_in : List Nat := List.replicate ATCA_NONCE_NUMIN_SIZE 0
              let (st, tw) ← dev.write_slot_with_encryption env slot 0 key num_in
              some (st, trace1 ++ trace2 ++ tw)
            | _ => some (AtcaStatus.AtcaBadParam, trace1 ++ trace2)
          else some (AtcaStatus.AtcaUnimplemented, trace1 ++ trace2)
      | _ => some (AtcaStatus.AtcaBadParam, [])

/-- Method `import_key`.  `none` models an indexing panic. -/
def import_key (dev : AteccDevice) (env : HwEnv) (key_type : KeyType)
    (key_data : List Nat) (slot_id : Nat) : Option (AtcaStatus × List HwCall) :=
  if dev.check_that_configuration_is_not_locked true then
    some (AtcaStatus.AtcaNotLocked, [])
  else do
    match ← dev.encryption_key_setup_parameters_check key_type slot_id with
    | Except.error err => some (err, [])
    | Except.ok () =>
      if (key_type = KeyType.Aes ∧ key_data.length ≠ ATCA_AES_KEY_SIZE) ∨
          (key_type = KeyType.P256EccKey ∧
            ¬(key_data.length = ATCA_ATECC_PRIV_KEY_SIZE ∨
              key_data.length = ATCA_ATECC_PUB_KEY_SIZE)) then
        some (AtcaStatus.AtcaInvalidSize, [])
      else
        let slot := if slot_id = ATCA_ATECC_SLOTS_COUNT then ATCA_ATECC_TEMPKEY_KEYID
                    else slot_id
        match key_type with
        | KeyType.P256EccKey =>
          if key_data.length = ATCA_ATECC_PUB_KEY_SIZE then
            if slot_id < ATCA_ATECC_MIN_SLOT_IDX_FOR_PUB_KEY then
              some (AtcaStatus.AtcaInvalidId, [])
            else some (env.write_pubkey, [HwCall.atcab_write_pubkey slot key_data])
          else
            let temp_key := List.replicate 4 0 ++ key_data
            match ← dev.get_write_key_idx slot_id with
            | some write_key_idx =>
              let (result, write_key) :=
                dev.get_access_key write_key_idx (List.replicate ATCA_KEY_SIZE 0)
              if result = AtcaStatus.AtcaSuccess then
                let _ := write_key
                some (env.priv_write,
                  [HwCall.atcab_priv_write slot temp_key write_key_idx])
              else some (result, [])
            | none => some (AtcaStatus.AtcaBadParam, [])
        | KeyType.Aes =>
          let temp_key := resize key_data ATCA_BLOCK_SIZE
          if slot ≠ ATCA_ATECC_TEMPKEY_KEYID then do
            let s ← dev.slots.get? slot
            match s.config.write_config with
            | WriteConfig.Always =>
              let (st, _data, tw) :=
                dev.write_zone env ATCA_ZONE_DATA slot 0 0 temp_key ATCA_BLOCK_SIZE
              some (st, tw)
            | WriteConfig.Encrypt =>
              let num_in : List Nat := List.replicate ATCA_NONCE_NUMIN_SIZE 0
              dev.write_slot_with_encryption env slot 0 temp_key num_in
            | _ => some (AtcaStatus.AtcaBadParam, [])
          else some (dev.nonce env NonceTarget.TempKey temp_key)
        | KeyType.ShaOrText => some (AtcaStatus.AtcaUnimplemented, [])
        | _ => some (AtcaStatus.AtcaBadParam, [])

/-- Method `get_public_key`.  Note the absence of any range check on
`slot_id` before the slot-table lookup: `none` is the panic of
`self.slots[slot_id as usize]`.  Returns status, the caller's public-key
buffer after the call, and the trace. -/
def get_public_key (dev : AteccDevice) (env : HwEnv) (slot_id : Nat)
    (public_key : List Nat) : Option (AtcaStatus × List Nat × List HwCall) :=
  if dev.check_that_configuration_is_not_locked true then
    some (AtcaStatus.AtcaNotLocked, public_key, [])
  else do
    let s ← dev.slots.get? slot_id
    if s.config.key_type ≠ KeyType.P256EccKey then
      some (AtcaStatus.AtcaBadParam, public_key, [])
    else
      let public_key := resize public_key ATCA_ATECC_PUB_KEY_SIZE
      if s.config.is_secret then
        if s.config.pub_info ∧ s.config.ecc_key_attr.is_private then
          some ((env.get_pubkey).1, (env.get_pubkey).2, [HwCall.atcab_get_pubkey slot_id])
        else if s.config.read_key.encrypt_read then
          if slot_id < ATCA_ATECC_MIN_SLOT_IDX_FOR_PUB_KEY then
            some (AtcaStatus.AtcaInvalidId, public_key, [])
          else some (AtcaStatus.AtcaUnimplemented, public_key, [])
        else some (AtcaStatus.AtcaBadParam, public_key, [])
      else if s.config.write_config = WriteConfig.Always then
        if slot_id < ATCA_ATECC_MIN_SLOT_IDX_FOR_PUB_KEY then
          some (AtcaStatus.AtcaInvalidId, public_key, [])
        else
          some ((env.read_pubkey).1, (env.read_pubkey).2, [HwCall.atcab_read_pubkey slot_id])
      else some (AtcaStatus.AtcaBadParam, public_key, [])

/-- Method `read_aes_key_from_slot`.  In the plain-read branch the Rust
original passes a temporary copy (`&mut data_block.to_vec()`) to
`read_zone`, so the bytes the hardware returns never reach
`data_block`; the model reproduces that. -/
def read_aes_key_from_slot (dev : AteccDevice) (env : HwEnv) (slot_id : Nat)
    (key : List Nat) : Option (AtcaStatus × List Nat × List HwCall) := do
  let s ← dev.slots.get? slot_id
  let slot_data := s.config
  if slot_data.key_type ≠ KeyType.Aes then some (AtcaStatus.AtcaBadParam, key, [])
  else
    let data_block : List Nat := List.replicate ATCA_BLOCK_SIZE 0
    let r ←
      if slot_data.is_secret ∧ slot_data.read_key.encrypt_read then
        let num_in : List Nat := List.replicate ATCA_NONCE_NUMIN_SIZE 0
        dev.read_slot_with_encryption env slot_id 0 data_block num_in
      else
        -- the Rust call reads into the temporary `data_block.to_vec()`
        let (st, _tmp, t) :=
          dev.read_zone env ATCA_ZONE_DATA slot_id 0 0 data_block ATCA_BLOCK_SIZE
        some (st, data_block, t)
    let (result, data_block, trace) := r
    if result = AtcaStatus.AtcaSuccess then
      some (result, resize data_block ATCA_AES_KEY_SIZE, trace)
    else some (result, key, trace)

/-- Method `read_sha_or_text_key_from_slot`. -/
def read_sha_or_text_key_from_slot (dev : AteccDevice) (slot_id : Nat)
    (key : List Nat) : Option (AtcaStatus × List Nat × List HwCall) := do
  let s ← dev.slots.get? slot_id
  if s.config.key_type ≠ KeyType.ShaOrText then some (AtcaStatus.AtcaBadParam, key, [])
  else if key.length > (get_slot_capacity slot_id).bytes then
    some (AtcaStatus.AtcaInvalidSize, key, [])
  else some (AtcaStatus.AtcaUnimplemented, key, [])

/-- Method `export_key`.  Returns status, the caller's buffer after the
call, and the trace. -/
def export_key (dev : AteccDevice) (env : HwEnv) (key_type : KeyType)
    (key_data : List Nat) (slot_id : Nat) : Option (AtcaStatus × List Nat × List HwCall) :=
  if dev.check_that_configuration_is_not_locked true then
    some (AtcaStatus.AtcaNotLocked, key_data, [])
  else if slot_id ≥ ATCA_ATECC_SLOTS_COUNT then
    some (AtcaStatus.AtcaInvalidId, key_data, [])
  else
    match key_type with
    | KeyType.P256EccKey => dev.get_public_key env slot_id key_data
    | KeyType.Aes => dev.read_aes_key_from_slot env slot_id key_data
    | KeyType.ShaOrText => dev.read_sha_or_text_key_from_slot slot_id key_data
    | _ => some (AtcaStatus.AtcaBadParam, key_data, [])

/-- Method `sign_hash`.  Returns status, the caller's signature buffer
after the call, and the trace. -/
def sign_hash (dev : AteccDevice) (env : HwEnv) (mode : SignMode) (slot_id : Nat)
    (signature : List Nat) : AtcaStatus × List Nat × List HwCall :=
  if dev.check_that_configuration_is_not_locked true then
    (AtcaStatus.AtcaNotLocked, signature, [])
  else if slot_id ≥ ATCA_ATECC_SLOTS_COUNT then
    (AtcaStatus.AtcaInvalidId, signature, [])
  else
    let signature := resize signature ATCA_SIG_SIZE
    match mode with
    | SignMode.External _hash =>
      ((env.sign).1, (env.sign).2, [HwCall.atcab_sign slot_id])
    | _ => (AtcaStatus.AtcaUnimplemented, signature, [])

/-- Method `verify_hash`. -/
def verify_hash (dev : AteccDevice) (env : HwEnv) (mode : VerifyMode)
    (hash signature : List Nat) : Except AtcaStatus Bool × List HwCall :=
  if dev.check_that_configuration_is_not_locked true then
    (Except.error AtcaStatus.AtcaNotLocked, [])
  else if signature.length ≠ ATCA_SIG_SIZE ∨ hash.length ≠ ATCA_SHA2_256_DIGEST_SIZE then
    (Except.error AtcaStatus.AtcaInvalidSize, [])
  else
    match mode with
    | VerifyMode.Internal slot_number =>
      if slot_number ≥ ATCA_ATECC_SLOTS_COUNT then
        (Except.error AtcaStatus.AtcaInvalidId, [])
      else
        let result := (env.verify_stored).1
        let is_verified := (env.verify_stored).2
        (if result = AtcaStatus.AtcaSuccess then Except.ok is_verified
         else Except.error result,
         [HwCall.atcab_verify_stored slot_number])
    | VerifyMode.External public_key =>
      if public_key.length ≠ ATCA_ATECC_PUB_KEY_SIZE then
        (Except.error AtcaStatus.AtcaInvalidId, [])
      else
        let result := (env.verify_extern).1
        let is_verified := (env.verify_extern).2
        (if result = AtcaStatus.AtcaSuccess then Except.ok is_verified
         else Except.error result,
         [HwCall.atcab_verify_extern])
    | _ => (Except.error AtcaStatus.AtcaUnimplemented, [])

end AteccDevice

namespace AteccResourceManager

/-- Method `AteccResourceManager::acquire` on the guarded counter:
returns whether the acquisition succeeded together with the new counter
value. -/
def acquire (ref_counter : Nat) : Bool × Nat :=
  if ref_counter = 0 then (true, 1) else (false, ref_counter)

/-- Method `AteccResourceManager::release` on the guarded counter:
returns whether the release succeeded together with the new counter
value. -/
def release (ref_counter : Nat) : Bool × Nat :=
  if ref_counter = 1 then (true, 0) else (false, ref_counter)

end AteccResourceManager

/-- The resource-manager gate at the top of `AteccDevice::new`: when
`acquire` fails the constructor returns `Err(AtcaAllocFailure)` before
doing anything else; otherwise construction proceeds with the updated
counter. -/
def atecc_device_new_gate (ref_counter : Nat) : Except AtcaStatus Nat :=
  if (AteccResourceManager.acquire ref_counter).1 then
    Except.ok (AteccResourceManager.acquire ref_counter).2
  else Except.error AtcaStatus.AtcaAllocFailure

/-- Method `AteccDevice::release`: when the manager's `release` fails
the method returns `AtcaBadParam` before touching the hardware;
otherwise it tears the session down and returns the `atcab_release`
status prescribed by `res`.  The second component is the new counter. -/
def atecc_device_release (ref_counter : Nat) (res : AtcaStatus) : AtcaStatus × Nat :=
  if ¬(AteccResourceManager.release ref_counter).1 then
    (AtcaStatus.AtcaBadParam, ref_counter)
  else (res, (AteccResourceManager.release ref_counter).2)

/-! Concrete fixtures used by the witness theorems. -/

/-- A slot configuration with every flag cleared (used as a base for
concrete devices). -/
def baseSlotConfig : SlotConfig :=
  { write_config := WriteConfig.Always
    key_type := KeyType.P256EccKey
    read_key := { encrypt_read := false, slot_number := 0 }
    ecc_key_attr :=
      { is_private := false, ext_sign := false, int_sign := false
        ecdh_operation := false, ecdh_secret_out := false }
    x509id := 0, auth_key := 0, write_key := 0
    is_secret := false, limited_use := false, no_mac := false
    persistent_disable := false, req_auth := false, req_random := false
    lockable := false, pub_info := false }

/-- A slot holding an AES key writable in the clear. -/
def aesAlwaysSlotConfig : SlotConfig :=
  { baseSlotConfig with key_type := KeyType.Aes, write_config := WriteConfig.Always }

/-- A 16-entry slot table of AES/Always slots. -/
def testSlots : List AtcaSlot :=
  (List.range 16).map (fun i => { id := i, is_locked := true, config := aesAlwaysSlotConfig })

/-- A hardware oracle whose primitives all succeed. -/
def envOk : HwEnv :=
  { random1 := (AtcaStatus.AtcaSuccess, List.replicate 32 1)
    random2 := (AtcaStatus.AtcaSuccess, List.replicate 32 2)
    nonce_load := AtcaStatus.AtcaSuccess
    genkey := AtcaStatus.AtcaSuccess
    sign := (AtcaStatus.AtcaSuccess, List.replicate 64 0)
    verify_stored := (AtcaStatus.AtcaSuccess, true)
    verify_extern := (AtcaStatus.AtcaSuccess, true)
    write_zone := AtcaStatus.AtcaSuccess
    write_enc := AtcaStatus.AtcaSuccess
    write_pubkey := AtcaStatus.AtcaSuccess
    priv_write := AtcaStatus.AtcaSuccess
    get_pubkey := (AtcaStatus.AtcaSuccess, List.replicate 64 0)
    read_pubkey := (AtcaStatus.AtcaSuccess, List.replicate 64 0)
    read_zone := (AtcaStatus.AtcaSuccess, List.replicate 32 0)
    read_enc := (AtcaStatus.AtcaSuccess, List.replicate 32 0) }

/-- An ATECC608A device context with both zones unlocked. -/
def devUnlocked : AteccDevice :=
  { device_type := AtcaDeviceType.ATECC608A
    config_zone_locked := false
    data_zone_locked := false
    chip_options :=
      { aes_enabled := true, kdf_aes_enabled := false, io_key_enabled := false
        io_key_in_slot := 0, ecdh_output_protection := 0, kdf_output_protection := 0 }
    access_keys := fun _ => none
    slots := testSlots }

/-- The same device context with both zones locked. -/
def devLocked : AteccDevice :=
  { devUnlocked with config_zone_locked := true, data_zone_locked := true }

/-- A configuration-zone buffer of 128 zero bytes except for the
slot-lock bitmap: byte 88 = 0b10111111, byte 89 = 0b01111111. -/
def lockBitmapCfg : List Nat :=
  ((List.replicate 128 0).set 88 0b10111111).set 89 0b01111111

/-! Theorems. -/

/-- C2: for every byte value, decoding the write_config field (the high
nibble of the second slot-config byte, decoded by
`atcab_get_write_config(byte >> 4)`) yields 0 → Always, 1 → PubInvalid,
any of {2,3,8,9,10,11} → Never, and any of {4,5,6,7,12,13,14,15} →
Encrypt. -/
theorem write_config_high_nibble_table (b : Nat) (hb : b < 256) :
    atcab_get_write_config (b >>> 4) =
      (if b >>> 4 = 0 then WriteConfig.Always
       else if b >>> 4 = 1 then WriteConfig.PubInvalid
       else if b >>> 4 = 2 ∨ b >>> 4 = 3 ∨ b >>> 4 = 8 ∨ b >>> 4 = 9 ∨
               b >>> 4 = 10 ∨ b >>> 4 = 11 then WriteConfig.Never
       else WriteConfig.Encrypt) := by
  revert hb; revert b; decide

/-- Witness for C2 at the byte 0x9C (high nibble 9, a Never value). -/
theorem write_config_high_nibble_table_witness :
    (0x9C : Nat) < 256 ∧
      atcab_get_write_config ((0x9C : Nat) >>> 4) =
        (if (0x9C : Nat) >>> 4 = 0 then WriteConfig.Always
         else if (0x9C : Nat) >>> 4 = 1 then WriteConfig.PubInvalid
         else if (0x9C : Nat) >>> 4 = 2 ∨ (0x9C : Nat) >>> 4 = 3 ∨
                 (0x9C : Nat) >>> 4 = 8 ∨ (0x9C : Nat) >>> 4 = 9 ∨
                 (0x9C : Nat) >>> 4 = 10 ∨ (0x9C : Nat) >>> 4 = 11 then WriteConfig.Never
         else WriteConfig.Encrypt) :=
  ⟨by decide, write_config_high_nibble_table 0x9C (by decide)⟩

/-- C3: the resource manager's `acquire` returns true iff the counter
was 0 (setting it to 1), `release` returns true iff it was 1 (resetting
it to 0); while one instance is live (counter 1) a second construction
attempt fails with AllocFailure, and after a successful device release
a second release returns BadParam. -/
theorem resource_manager_single_instance :
    (∀ c : Nat, ((AteccResourceManager.acquire c).1 = true ↔ c = 0) ∧
      (c = 0 → (AteccResourceManager.acquire c).2 = 1)) ∧
    (∀ c : Nat, ((AteccResourceManager.release c).1 = true ↔ c = 1) ∧
      (c = 1 → (AteccResourceManager.release c).2 = 0)) ∧
    atecc_device_new_gate 1 = Except.error AtcaStatus.AtcaAllocFailure ∧
    (∀ res : AtcaStatus, atecc_device_release 1 res = (res, 0)) ∧
    (∀ res res2 : AtcaStatus,
      (atecc_device_release (atecc_device_release 1 res).2 res2).1 =
        AtcaStatus.AtcaBadParam) := by
  refine ⟨fun c => ⟨?_, ?_⟩, fun c => ⟨?_, ?_⟩, ?_, ?_, ?_⟩
  · by_cases h : c = 0 <;> simp [AteccResourceManager.acquire, h]
  · intro h; simp [AteccResourceManager.acquire, h]
  · by_cases h : c = 1 <;> simp [AteccResourceManager.release, h]
  · intro h; simp [AteccResourceManager.release, h]
  · rfl
  · intro res
    simp [atecc_device_release, AteccResourceManager.release]
  · intro res res2
    simp [atecc_device_release, AteccResourceManager.release]

/-- Witness for C3: the counter facts evaluated at 0 and 1. -/
theorem resource_manager_single_instance_witness :
    ((AteccResourceManager.acquire 0).1 = true ↔ (0 : Nat) = 0) ∧
      ((AteccResourceManager.release 1).1 = true ↔ (1 : Nat) = 1) ∧
      atecc_device_new_gate 1 = Except.error AtcaStatus.AtcaAllocFailure ∧
      atecc_device_release 1 AtcaStatus.AtcaSuccess = (AtcaStatus.AtcaSuccess, 0) ∧
      (atecc_device_release
          (atecc_device_release 1 AtcaStatus.AtcaSuccess).2 AtcaStatus.AtcaSuccess).1 =
        AtcaStatus.AtcaBadParam :=
  ⟨(resource_manager_single_instance.1 0).1,
   (resource_manager_single_instance.2.1 1).1,
   resource_manager_single_instance.2.2.1,
   resource_manager_single_instance.2.2.2.1 AtcaStatus.AtcaSuccess,
   resource_manager_single_instance.2.2.2.2 AtcaStatus.AtcaSuccess AtcaStatus.AtcaSuccess⟩

/-- C6: slot-lock decoding reads one bit per slot from the bitmap at
byte 88, bit value 0 meaning locked; for a buffer with byte 88 =
0b10111111 and byte 89 = 0b01111111, slot 0 is unlocked while slots 6
and 15 are locked. -/
theorem slot_lock_bitmap_decoding :
    (∀ (cfg : List Nat) (idx : Nat), cfg.length = 128 → idx < 16 →
      ((atcab_get_config_from_config_zone cfg).get? idx).map (fun s => s.is_locked) =
        some ((((cfg.getD (88 + idx / 8) 0) >>> (idx % 8)) &&& 1) != 1)) ∧
    ((atcab_get_config_from_config_zone lockBitmapCfg).get? 0).map
        (fun s => s.is_locked) = some false ∧
    ((atcab_get_config_from_config_zone lockBitmapCfg).get? 6).map
        (fun s => s.is_locked) = some true ∧
    ((atcab_get_config_from_config_zone lockBitmapCfg).get? 15).map
        (fun s => s.is_locked) = some true := by
  refine ⟨fun cfg idx _hlen hidx => ?_, by rfl, by rfl, by rfl⟩
  interval_cases idx <;> rfl

/-- Witness for C6: the general bitmap rule applied to the concrete
buffer at slot 6. -/
theorem slot_lock_bitmap_decoding_witness :
    lockBitmapCfg.length = 128 ∧ (6 : Nat) < 16 ∧
      ((atcab_get_config_from_config_zone lockBitmapCfg).get? 6).map
          (fun s => s.is_locked) =
        some ((((lockBitmapCfg.getD (88 + 6 / 8) 0) >>> (6 % 8)) &&& 1) != 1) :=
  ⟨by rfl, by decide, slot_lock_bitmap_decoding.1 lockBitmapCfg 6 (by rfl) (by decide)⟩

/-- C1: whenever the relevant zone is unlocked (the config zone for
gen_key; the config or the data zone for import_key, export_key,
sign_hash and verify_hash), the operation returns NotLocked
(verify_hash: Err(NotLocked)) and its hardware-call trace is empty. -/
theorem ops_fail_notlocked_without_hw_calls :
    (∀ (dev : AteccDevice) (env : HwEnv) (kt : KeyType) (sid : Nat),
      dev.config_zone_locked = false →
        dev.gen_key env kt sid = some (AtcaStatus.AtcaNotLocked, [])) ∧
    (∀ (dev : AteccDevice) (env : HwEnv) (kt : KeyType) (kd : List Nat) (sid : Nat),
      dev.config_zone_locked = false ∨ dev.data_zone_locked = false →
        dev.import_key env kt kd sid = some (AtcaStatus.AtcaNotLocked, [])) ∧
    (∀ (dev : AteccDevice) (env : HwEnv) (kt : KeyType) (kd : List Nat) (sid : Nat),
      dev.config_zone_locked = false ∨ dev.data_zone_locked = false →
        dev.export_key env kt kd sid = some (AtcaStatus.AtcaNotLocked, kd, [])) ∧
    (∀ (dev : AteccDevice) (env : HwEnv) (mode : SignMode) (sid : Nat) (sig : List Nat),
      dev.config_zone_locked = false ∨ dev.data_zone_locked = false →
        dev.sign_hash env mode sid sig = (AtcaStatus.AtcaNotLocked, sig, [])) ∧
    (∀ (dev : AteccDevice) (env : HwEnv) (mode : VerifyMode) (hash sig : List Nat),
      dev.config_zone_locked = false ∨ dev.data_zone_locked = false →
        dev.verify_hash env mode hash sig =
          (Except.error AtcaStatus.AtcaNotLocked, [])) := by
  refine ⟨fun dev env kt sid h => ?_,
          fun dev env kt kd sid h => ?_,
          fun dev env kt kd sid h => ?_,
          fun dev env mode sid sig h => ?_,
          fun dev env mode hash sig h => ?_⟩
  · simp [AteccDevice.gen_key, AteccDevice.check_that_configuration_is_not_locked, h]
  · rcases h with h | h <;>
      simp [AteccDevice.import_key, AteccDevice.check_that_configuration_is_not_locked, h]
  · rcases h with h | h <;>
      simp [AteccDevice.export_key, AteccDevice.check_that_configuration_is_not_locked, h]
  · rcases h with h | h <;>
      simp [AteccDevice.sign_hash, AteccDevice.check_that_configuration_is_not_locked, h]
  · rcases h with h | h <;>
      simp [AteccDevice.verify_hash, AteccDevice.check_that_configuration_is_not_locked, h]

/-- Witness for C1: all five operations on the concrete unlocked
device. -/
theorem ops_fail_notlocked_without_hw_calls_witness :
    devUnlocked.gen_key envOk KeyType.Aes 0 = some (AtcaStatus.AtcaNotLocked, []) ∧
      devUnlocked.import_key envOk KeyType.Aes (List.replicate 16 0) 0 =
        some (AtcaStatus.AtcaNotLocked, []) ∧
      devUnlocked.export_key envOk KeyType.Aes [] 0 =
        some (AtcaStatus.AtcaNotLocked, [], []) ∧
      devUnlocked.sign_hash envOk (SignMode.External (List.replicate 32 0)) 0 [] =
        (AtcaStatus.AtcaNotLocked, [], []) ∧
      devUnlocked.verify_hash envOk (VerifyMode.External (List.replicate 64 0))
          (List.replicate 32 0) (List.replicate 64 0) =
        (Except.error AtcaStatus.AtcaNotLocked, []) :=
  ⟨ops_fail_notlocked_without_hw_calls.1 devUnlocked envOk KeyType.Aes 0 rfl,
   ops_fail_notlocked_without_hw_calls.2.1 devUnlocked envOk KeyType.Aes
     (List.replicate 16 0) 0 (Or.inl rfl),
   ops_fail_notlocked_without_hw_calls.2.2.1 devUnlocked envOk KeyType.Aes [] 0
     (Or.inl rfl),
   ops_fail_notlocked_without_hw_calls.2.2.2.1 devUnlocked envOk
     (SignMode.External (List.replicate 32 0)) 0 [] (Or.inl rfl),
   ops_fail_notlocked_without_hw_calls.2.2.2.2 devUnlocked envOk
     (VerifyMode.External (List.replicate 64 0)) (List.replicate 32 0)
     (List.replicate 64 0) (Or.inl rfl)⟩

/-- C4: the nonce target/length decision table — on a non-ATECC608A
device any target other than TempKey is BadParam and TempKey accepts
only 32 bytes; on an ATECC608A, TempKey and MsgDigBuf accept 32 or 64
bytes and AltKeyBuf only 32; every other combination is InvalidSize;
all rejections happen with an empty hardware trace. -/
theorem nonce_validation_table :
    (∀ (dev : AteccDevice) (env : HwEnv) (t : NonceTarget) (d : List Nat),
      dev.device_type ≠ AtcaDeviceType.ATECC608A → t ≠ NonceTarget.TempKey →
        dev.nonce env t d = (AtcaStatus.AtcaBadParam, [])) ∧
    (∀ (dev : AteccDevice) (env : HwEnv) (d : List Nat),
      dev.device_type ≠ AtcaDeviceType.ATECC608A → d.length = 32 →
        dev.nonce env NonceTarget.TempKey d =
          (env.nonce_load, [HwCall.atcab_nonce_load NonceTarget.TempKey d.length])) ∧
    (∀ (dev : AteccDevice) (env : HwEnv) (d : List Nat),
      dev.device_type ≠ AtcaDeviceType.ATECC608A → d.length ≠ 32 →
        dev.nonce env NonceTarget.TempKey d = (AtcaStatus.AtcaInvalidSize, [])) ∧
    (∀ (dev : AteccDevice) (env : HwEnv) (t : NonceTarget) (d : List Nat),
      dev.device_type = AtcaDeviceType.ATECC608A →
      (t = NonceTarget.TempKey ∨ t = NonceTarget.MsgDigBuf) →
      (d.length = 32 ∨ d.length = 64) →
        dev.nonce env t d = (env.nonce_load, [HwCall.atcab_nonce_load t d.length])) ∧
    (∀ (dev : AteccDevice) (env : HwEnv) (d : List Nat),
      dev.device_type = AtcaDeviceType.ATECC608A → d.length = 32 →
        dev.nonce env NonceTarget.AltKeyBuf d =
          (env.nonce_load, [HwCall.atcab_nonce_load NonceTarget.AltKeyBuf d.length])) ∧
    (∀ (dev : AteccDevice) (env : HwEnv) (t : NonceTarget) (d : List Nat),
      dev.device_type = AtcaDeviceType.ATECC608A →
      ¬(((t = NonceTarget.TempKey ∨ t = NonceTarget.MsgDigBuf) ∧
          (d.length = 32 ∨ d.length = 64)) ∨
        (t = NonceTarget.AltKeyBuf ∧ d.length = 32)) →
        dev.nonce env t d = (AtcaStatus.AtcaInvalidSize, [])) := by
  refine ⟨?_, ?_, ?_, ?_, ?_, ?_⟩
  · intro dev env t d hdev ht
    simp [AteccDevice.nonce, hdev, ht]
  · intro dev env d hdev h32
    have h64 : d.length ≠ 64 := by omega
    simp [AteccDevice.nonce, ATCA_NONCE_SIZE, hdev, h32, h64]
  · intro dev env d hdev h32
    by_cases h64 : d.length = 64 <;>
      simp [AteccDevice.nonce, ATCA_NONCE_SIZE, hdev, h32, h64]
  · intro dev env t d hdev ht hlen
    rcases ht with rfl | rfl <;> rcases hlen with h | h <;>
      first
      | (have hne : d.length ≠ 64 := by omega
         simp [AteccDevice.nonce, ATCA_NONCE_SIZE, hdev, h, hne])
      | (have hne : d.length ≠ 32 := by omega
         simp [AteccDevice.nonce, ATCA_NONCE_SIZE, hdev, h, hne])
  · intro dev env d hdev h32
    have h64 : d.length ≠ 64 := by omega
    simp [AteccDevice.nonce, ATCA_NONCE_SIZE, hdev, h32, h64]
  · intro dev env t d hdev hnot
    cases t with
    | TempKey =>
      have h32 : d.length ≠ 32 := fun h => hnot (Or.inl ⟨Or.inl rfl, Or.inl h⟩)
      have h64 : d.length ≠ 64 := fun h => hnot (Or.inl ⟨Or.inl rfl, Or.inr h⟩)
      simp [AteccDevice.nonce, ATCA_NONCE_SIZE, hdev, h32, h64]
    | MsgDigBuf =>
      have h32 : d.length ≠ 32 := fun h => hnot (Or.inl ⟨Or.inr rfl, Or.inl h⟩)
      have h64 : d.length ≠ 64 := fun h => hnot (Or.inl ⟨Or.inr rfl, Or.inr h⟩)
      simp [AteccDevice.nonce, ATCA_NONCE_SIZE, hdev, h32, h64]
    | AltKeyBuf =>
      have h32 : d.length ≠ 32 := fun h => hnot (Or.inr ⟨rfl, h⟩)
      simp [AteccDevice.nonce, ATCA_NONCE_SIZE, hdev, h32]

/-- Witness for C4: the 608A device accepts a 64-byte TempKey nonce and
rejects a 16-byte one. -/
theorem nonce_validation_table_witness :
    devLocked.nonce envOk NonceTarget.TempKey (List.replicate 64 0) =
      (envOk.nonce_load,
        [HwCall.atcab_nonce_load NonceTarget.TempKey (List.replicate 64 0).length]) ∧
      devLocked.nonce envOk NonceTarget.TempKey (List.replicate 16 0) =
        (AtcaStatus.AtcaInvalidSize, []) :=
  ⟨nonce_validation_table.2.2.2.1 devLocked envOk NonceTarget.TempKey
      (List.replicate 64 0) rfl (Or.inl rfl) (Or.inr (by simp)),
   nonce_validation_table.2.2.2.2.2 devLocked envOk NonceTarget.TempKey
      (List.replicate 16 0) rfl (by simp)⟩

/-- C5: adding a valid 32-byte access key and reading it back returns
exactly the bytes written; after flushing the store the read fails with
InvalidId. -/
theorem access_key_store_roundtrip (dev : AteccDevice) (slot : Nat)
    (key buf buf2 : List Nat)
    (hvalid : dev.access_key_setup_parameters_check slot = Except.ok ())
    (hlen : key.length = ATCA_KEY_SIZE) :
    (dev.add_access_key slot key).1 = AtcaStatus.AtcaSuccess ∧
    (dev.add_access_key slot key).2.get_access_key slot buf =
      (AtcaStatus.AtcaSuccess, key) ∧
    ((dev.add_access_key slot key).2.flush_access_keys).2.get_access_key slot buf2 =
      (AtcaStatus.AtcaInvalidId, resize buf2 ATCA_KEY_SIZE) := by
  have hP : ¬(slot > ATCA_ATECC_SLOTS_COUNT ∨
      (slot = ATCA_ATECC_SLOTS_COUNT ∧ dev.device_type ≠ AtcaDeviceType.ATECC608A)) := by
    intro hp
    simp [AteccDevice.access_key_setup_parameters_check, hp] at hvalid
  refine ⟨?_, ?_, ?_⟩ <;>
    simp [AteccDevice.add_access_key, AteccDevice.get_access_key,
      AteccDevice.flush_access_keys, AteccDevice.access_key_setup_parameters_check,
      hP, hlen]

/-- Witness for C5 on the concrete locked device at slot 3. -/
theorem access_key_store_roundtrip_witness :
    (devLocked.add_access_key 3 (List.replicate 32 7)).1 = AtcaStatus.AtcaSuccess ∧
      (devLocked.add_access_key 3 (List.replicate 32 7)).2.get_access_key 3 [] =
        (AtcaStatus.AtcaSuccess, List.replicate 32 7) ∧
      ((devLocked.add_access_key 3
          (List.replicate 32 7)).2.flush_access_keys).2.get_access_key 3 [] =
        (AtcaStatus.AtcaInvalidId, resize [] ATCA_KEY_SIZE) :=
  access_key_store_roundtrip devLocked 3 (List.replicate 32 7) [] [] (by rfl)
    (by simp [ATCA_KEY_SIZE])

/-- Helper: `resize` is the identity on a list that already has the
requested length. -/
theorem resize_of_length_eq {l : List Nat} {n : Nat} (h : l.length = n) :
    resize l n = l := by
  subst h; simp [resize]

/-- C7: on the AES gen_key path (config zone locked, AES enabled, valid
AES slot, both random calls succeeding) the random primitive is invoked
exactly twice and the first output r1 is discarded: whatever the slot's
write_config, the trace holds exactly two random calls, and the key
written (in the clear for Always, encrypted for Encrypt) is the second
output truncated to the AES key size and zero-padded to a block. -/
theorem gen_key_aes_double_random (dev : AteccDevice) (env : HwEnv) (slot_id : Nat)
    (s : AtcaSlot) (r1 r2 : List Nat)
    (hconf : dev.config_zone_locked = true)
    (haes : dev.chip_options.aes_enabled = true)
    (hslot : slot_id < ATCA_ATECC_SLOTS_COUNT)
    (hs : dev.slots.get? slot_id = some s)
    (hkt : s.config.key_type = KeyType.Aes)
    (hr1 : env.random1 = (AtcaStatus.AtcaSuccess, r1))
    (hr2 : env.random2 = (AtcaStatus.AtcaSuccess, r2))
    (hlen2 : r2.length = ATCA_RANDOM_BUFFER_SIZE) :
    (s.config.write_config = WriteConfig.Always →
      dev.gen_key env KeyType.Aes slot_id =
        some (env.write_zone,
          [HwCall.atcab_random, HwCall.atcab_random,
           HwCall.atcab_write_zone ATCA_ZONE_DATA slot_id 0 0
             (r2.take ATCA_AES_KEY_SIZE ++ List.replicate 16 0) ATCA_BLOCK_SIZE])) ∧
    (∀ (wk : Nat) (akey : List Nat),
      s.config.write_config = WriteConfig.Encrypt →
      s.config.write_key = wk →
      dev.access_keys wk = some akey →
      dev.access_key_setup_parameters_check wk = Except.ok () →
        dev.gen_key env KeyType.Aes slot_id =
          some (env.write_enc,
            [HwCall.atcab_random, HwCall.atcab_random,
             HwCall.atcab_write_enc slot_id 0
               (r2.take ATCA_AES_KEY_SIZE ++ List.replicate 16 0) wk])) ∧
    (s.config.write_config = WriteConfig.Never ∨
        s.config.write_config = WriteConfig.PubInvalid →
      dev.gen_key env KeyType.Aes slot_id =
        some (AtcaStatus.AtcaBadParam,
          [HwCall.atcab_random, HwCall.atcab_random])) := by
  simp only [ATCA_ATECC_SLOTS_COUNT] at hslot
  simp only [ATCA_RANDOM_BUFFER_SIZE] at hlen2
  have hne16 : slot_id ≠ 16 := by omega
  have hngt : ¬slot_id > 16 := by omega
  have hntk : slot_id ≠ ATCA_ATECC_TEMPKEY_KEYID := by
    simp only [ATCA_ATECC_TEMPKEY_KEYID]; omega
  have htake : (r2.take 16).length = 16 := by simp [hlen2]
  have htk32 : (r2.take 16).take 32 = r2.take 16 :=
    List.take_of_length_le (by omega)
  have happ : (r2.take 16 ++ List.replicate 16 0).length = 32 := by simp [htake]
  have htk32b : (r2.take 16 ++ List.replicate 16 0).take 32 =
      r2.take 16 ++ List.replicate 16 0 :=
    List.take_of_length_le (le_of_eq happ)
  have hs' : dev.slots[slot_id]? = some s := by
    simpa [← List.get?_eq_getElem?] using hs
  refine ⟨fun hwc => ?_, fun wk akey hwc hwk hak hakchk => ?_, fun hwc => ?_⟩
  · simp [AteccDevice.gen_key, AteccDevice.check_that_configuration_is_not_locked,
      AteccDevice.encryption_key_setup_parameters_check, AteccDevice.random,
      AteccDevice.write_zone, resize, ATCA_ATECC_SLOTS_COUNT,
      hconf, haes, hslot, hne16, hngt, hntk, hs, hs', hkt, hwc, hr1, hr2, hlen2,
      htake, htk32, happ, htk32b,
      ATCA_RANDOM_BUFFER_SIZE, ATCA_AES_KEY_SIZE, ATCA_BLOCK_SIZE]
  · have hblocks : (AteccDevice.get_slot_capacity slot_id).blocks ≠ 0 := by
      unfold AteccDevice.get_slot_capacity
      split_ifs <;> (try omega) <;> simp
    have hn16 : ¬16 ≤ slot_id := by omega
    simp [AteccDevice.gen_key, AteccDevice.check_that_configuration_is_not_locked,
      AteccDevice.encryption_key_setup_parameters_check, AteccDevice.random,
      AteccDevice.write_slot_with_encryption, AteccDevice.get_write_key_idx,
      AteccDevice.get_access_key, resize, ATCA_ATECC_SLOTS_COUNT,
      ATCA_NONCE_NUMIN_SIZE, ATCA_KEY_SIZE,
      hconf, haes, hslot, hne16, hngt, hntk, hs, hs', hkt, hwc, hwk, hak, hakchk,
      hblocks, hn16, hr1, hr2, hlen2, htake, htk32, happ, htk32b,
      ATCA_RANDOM_BUFFER_SIZE, ATCA_AES_KEY_SIZE, ATCA_BLOCK_SIZE]
  · rcases hwc with hwc | hwc <;>
      simp [AteccDevice.gen_key, AteccDevice.check_that_configuration_is_not_locked,
        AteccDevice.encryption_key_setup_parameters_check, AteccDevice.random,
        resize, ATCA_ATECC_SLOTS_COUNT,
        hconf, haes, hslot, hne16, hngt, hntk, hs, hs', hkt, hwc, hr1, hr2, hlen2,
        htake, htk32, ATCA_RANDOM_BUFFER_SIZE, ATCA_AES_KEY_SIZE, ATCA_BLOCK_SIZE]

/-- Witness for C7 on the concrete locked device, slot 9. -/
theorem gen_key_aes_double_random_witness :
    devLocked.gen_key envOk KeyType.Aes 9 =
      some (envOk.write_zone,
        [HwCall.atcab_random, HwCall.atcab_random,
         HwCall.atcab_write_zone ATCA_ZONE_DATA 9 0 0
           ((List.replicate 32 2).take ATCA_AES_KEY_SIZE ++ List.replicate 16 0)
           ATCA_BLOCK_SIZE]) :=
  (gen_key_aes_double_random devLocked envOk 9
    { id := 9, is_locked := true, config := aesAlwaysSlotConfig }
    (List.replicate 32 1) (List.replicate 32 2)
    rfl rfl (by decide) (by rfl) rfl rfl rfl rfl).1 rfl

/-- C9: on the AES gen_key path, when the first random call succeeds
and the second fails, gen_key returns the first call's Success status
immediately; the trace holds the two random calls and no write. -/
theorem gen_key_aes_second_random_failure (dev : AteccDevice) (env : HwEnv)
    (slot_id : Nat) (s : AtcaSlot) (r1 r2 : List Nat) (st2 : AtcaStatus)
    (hconf : dev.config_zone_locked = true)
    (haes : dev.chip_options.aes_enabled = true)
    (hslot : slot_id < ATCA_ATECC_SLOTS_COUNT)
    (hs : dev.slots.get? slot_id = some s)
    (hkt : s.config.key_type = KeyType.Aes)
    (hr1 : env.random1 = (AtcaStatus.AtcaSuccess, r1))
    (hr2 : env.random2 = (st2, r2))
    (hfail : st2 ≠ AtcaStatus.AtcaSuccess) :
    dev.gen_key env KeyType.Aes slot_id =
      some (AtcaStatus.AtcaSuccess, [HwCall.atcab_random, HwCall.atcab_random]) := by
  simp only [ATCA_ATECC_SLOTS_COUNT] at hslot
  have hne16 : slot_id ≠ 16 := by omega
  have hngt : ¬slot_id > 16 := by omega
  have hs' : dev.slots[slot_id]? = some s := by
    simpa [← List.get?_eq_getElem?] using hs
  simp [AteccDevice.gen_key, AteccDevice.check_that_configuration_is_not_locked,
    AteccDevice.encryption_key_setup_parameters_check, AteccDevice.random,
    ATCA_ATECC_SLOTS_COUNT, hconf, haes, hslot, hne16, hngt, hs, hs', hkt,
    hr1, hr2, hfail]

/-- Witness for C9 on the concrete locked device, slot 9, with an
oracle whose second random call fails. -/
theorem gen_key_aes_second_random_failure_witness :
    devLocked.gen_key { envOk with random2 := (AtcaStatus.AtcaUnknown, []) }
        KeyType.Aes 9 =
      some (AtcaStatus.AtcaSuccess, [HwCall.atcab_random, HwCall.atcab_random]) :=
  gen_key_aes_second_random_failure devLocked
    { envOk with random2 := (AtcaStatus.AtcaUnknown, []) } 9
    { id := 9, is_locked := true, config := aesAlwaysSlotConfig }
    (List.replicate 32 1) [] AtcaStatus.AtcaUnknown
    rfl rfl (by decide) (by rfl) rfl rfl rfl (by decide)

/-- C8: with both zones locked and a 16-entry slot table,
get_public_key on a slot id of 16 or more panics on the unchecked slot
lookup (modelled as `none`), while export_key rejects the same slot id
with InvalidId before delegating. -/
theorem get_public_key_unchecked_slot_index (dev : AteccDevice) (env : HwEnv)
    (slot_id : Nat) (pk kd : List Nat)
    (h16 : dev.slots.length = 16)
    (hslot : ATCA_ATECC_SLOTS_COUNT ≤ slot_id)
    (hc : dev.config_zone_locked = true)
    (hd : dev.data_zone_locked = true) :
    dev.get_public_key env slot_id pk = none ∧
    dev.export_key env KeyType.P256EccKey kd slot_id =
      some (AtcaStatus.AtcaInvalidId, kd, []) := by
  simp only [ATCA_ATECC_SLOTS_COUNT] at hslot
  have hnone : dev.slots[slot_id]? = none := by
    rw [List.getElem?_eq_none_iff]; omega
  constructor
  · simp [AteccDevice.get_public_key,
      AteccDevice.check_that_configuration_is_not_locked, hc, hd, hnone]
  · simp [AteccDevice.export_key, AteccDevice.check_that_configuration_is_not_locked,
      ATCA_ATECC_SLOTS_COUNT, hc, hd, hslot]

/-- Witness for C8 on the concrete locked device at slot id 16. -/
theorem get_public_key_unchecked_slot_index_witness :
    devLocked.get_public_key envOk 16 [] = none ∧
      devLocked.export_key envOk KeyType.P256EccKey [] 16 =
        some (AtcaStatus.AtcaInvalidId, [], []) :=
  get_public_key_unchecked_slot_index devLocked envOk 16 [] []
    (by rfl) (by decide) rfl rfl

/-- C10: verify_hash in External mode with a public key that is not 64
bytes long returns Err(InvalidId) — not InvalidSize — even when hash
and signature have the correct lengths, with an empty hardware trace. -/
theorem verify_hash_external_bad_pubkey_len (dev : AteccDevice) (env : HwEnv)
    (pk hash sig : List Nat)
    (hc : dev.config_zone_locked = true)
    (hd : dev.data_zone_locked = true)
    (hpk : pk.length ≠ ATCA_ATECC_PUB_KEY_SIZE)
    (hh : hash.length = ATCA_SHA2_256_DIGEST_SIZE)
    (hsig : sig.length = ATCA_SIG_SIZE) :
    dev.verify_hash env (VerifyMode.External pk) hash sig =
      (Except.error AtcaStatus.AtcaInvalidId, []) := by
  simp [AteccDevice.verify_hash, AteccDevice.check_that_configuration_is_not_locked,
    hc, hd, hpk, hh, hsig]

/-- Witness for C10: a 32-byte public key on the concrete locked
device. -/
theorem verify_hash_external_bad_pubkey_len_witness :
    devLocked.verify_hash envOk (VerifyMode.External (List.replicate 32 0))
        (List.replicate 32 0) (List.replicate 64 0) =
      (Except.error AtcaStatus.AtcaInvalidId, []) :=
  verify_hash_external_bad_pubkey_len devLocked envOk (List.replicate 32 0)
    (List.replicate 32 0) (List.replicate 64 0) rfl rfl (by decide) (by decide) (by decide)

end CryptoAuthLib
